import Mathlib

/-!
Shallow embedding of `src/traffic.py`: a single-intersection traffic
simulation with two vehicle classes (cars, bikes), a fixed-cycle signal
scheduler and Poisson arrivals.  Arrival draws (`np.random.poisson`) are
modelled as an explicit arrival function supplied to the simulation, so
every definition is deterministic and executable.  Python ints are
modelled as `Int` (queue lengths) and `Nat` (tick counters, durations);
Python floats that are only stored and compared are modelled as `Rat`.
-/

namespace Traffic

/-- Source lines 29-33: `LaneType.CAR = 1`. -/
def LaneType.CAR : Nat := 1

/-- Source lines 29-33: `LaneType.BIKE = 2`. -/
def LaneType.BIKE : Nat := 2

/-- Source lines 36-43: the `Lane` object with its four attributes. -/
structure Lane where
  green_light : Bool
  vehicle_num : Int
  lane_type : Nat
  business : Rat
deriving DecidableEq

/-- Source lines 39-43: `Lane.__init__` — no validation is performed,
any `lane_type` and any `business` value is accepted. -/
def Lane.init (lane_type : Nat) (business : Rat) : Lane :=
  { green_light := false, vehicle_num := 0, lane_type := lane_type, business := business }

/-- Source lines 46-58: `Lane.update_vehicle_number`.  The Poisson draw is
passed in as `arrival`.  Arrivals are added first; then, if the light is
green and the queue is positive, a bike lane with exactly one vehicle
departs one vehicle, otherwise `lane_type` (1 for cars, 2 for bikes)
vehicles depart. -/
def update_vehicle_number (lane : Lane) (arrival : Nat) : Lane :=
  let v : Int := lane.vehicle_num + arrival
  if lane.green_light ∧ 0 < v then
    if lane.lane_type = LaneType.BIKE ∧ v = 1 then
      { lane with vehicle_num := v - 1 }
    else
      { lane with vehicle_num := v - lane.lane_type }
  else
    { lane with vehicle_num := v }

/-- Source line 103: `LaneType.CAR if lane["type"] == "car" else LaneType.BIKE`. -/
def parse_lane_type (s : String) : Nat :=
  if s = "car" then LaneType.CAR else LaneType.BIKE

/-- Source lines 102-104: construction of one lane from a config descriptor. -/
def parse_lane (ty : String) (business : Rat) : Lane :=
  Lane.init (parse_lane_type ty) business

/-- Source lines 21-24: backup global constant `GREEN_CARS`. -/
def GREEN_CARS : Nat := 30

/-- Source lines 21-24: backup global constant `GREEN_BIKES`. -/
def GREEN_BIKES : Nat := 10

/-- Source lines 21-24: backup global constant `RED_TIME_ALL`. -/
def RED_TIME_ALL : Nat := 10

/-- Source line 27: backup global constant `SIM_LENGTH` (hours), a float
`0.1`; `int(3600 * 0.1)` evaluates to `360` in Python, matching the exact
rational value used here. -/
def SIM_LENGTH : Rat := 1 / 10

/-- The trio of signal-timing globals (source lines 21-24, possibly
rebound by `JsonReader.parse`). -/
structure Config where
  GREEN_CARS : Nat
  GREEN_BIKES : Nat
  RED_TIME_ALL : Nat
deriving DecidableEq

/-- Source line 24 and 95: `CYCLE_LENGTH = GREEN_CARS + GREEN_BIKES + 2 * RED_TIME_ALL`. -/
def Config.CYCLE_LENGTH (c : Config) : Nat :=
  c.GREEN_CARS + c.GREEN_BIKES + 2 * c.RED_TIME_ALL

/-- The backup configuration (source lines 21-24). -/
def defaultConfig : Config :=
  { GREEN_CARS := GREEN_CARS, GREEN_BIKES := GREEN_BIKES, RED_TIME_ALL := RED_TIME_ALL }

/-- Source lines 166-171: `Main.set_lanes` sets `green_light := status` on
every lane whose `lane_type` matches, leaving the others untouched. -/
def set_lanes (lanes : List Lane) (lane_type : Nat) (status : Bool) : List Lane :=
  lanes.map fun lane =>
    if lane.lane_type = lane_type then { lane with green_light := status } else lane

/-- Source lines 178-190: the signal-switching part of `Main.loop`,
keyed by `ticks = iter_count % CYCLE_LENGTH`. -/
def scheduler_apply (c : Config) (iter_count : Nat) (lanes : List Lane) : List Lane :=
  let ticks := iter_count % c.CYCLE_LENGTH
  if ticks = 0 then
    set_lanes (set_lanes lanes LaneType.CAR false) LaneType.BIKE true
  else if ticks = c.GREEN_BIKES then
    set_lanes lanes LaneType.BIKE false
  else if ticks = c.GREEN_BIKES + c.RED_TIME_ALL then
    set_lanes lanes LaneType.CAR true
  else if ticks = c.GREEN_BIKES + c.RED_TIME_ALL + c.GREEN_CARS then
    set_lanes lanes LaneType.CAR false
  else
    lanes

/-- Source lines 193-194: the per-lane queue updates of one tick, in list
order; `arr k` is the Poisson draw for the lane at position `k`. -/
def updateAll (arr : Nat → Nat) : List Lane → Nat → List Lane
  | [], _ => []
  | l :: ls, k => update_vehicle_number l (arr k) :: updateAll arr ls (k + 1)

/-- One cell of an observation row: `add_row` mixes the leading signal
booleans with integer queue lengths in one Python list. -/
inductive Entry where
  | flag (b : Bool)
  | count (n : Int)
deriving DecidableEq

/-- The `self.bikes[0].green_light` entry appended only when the class has
at least one lane (source lines 218 and 222). -/
def head_flag : List Lane → List Entry
  | [] => []
  | l :: _ => [Entry.flag l.green_light]

/-- Source lines 213-226: `Main.add_row` builds the row `final` from the
bike lanes then the car lanes (the `self.bikes`/`self.cars` filters of
source lines 151-152, re-derived here from the current lane list, which is
equivalent because updates never change `lane_type` or list order). -/
def add_row (lanes : List Lane) : List Entry :=
  let bikes := lanes.filter fun a => a.lane_type == LaneType.BIKE
  let cars := lanes.filter fun a => a.lane_type == LaneType.CAR
  head_flag bikes ++ bikes.map (fun b => Entry.count b.vehicle_num)
    ++ head_flag cars ++ cars.map (fun ca => Entry.count ca.vehicle_num)

/-- Source lines 175-197: one call of `Main.loop` — scheduler update, then
every lane's queue update, then the observation row. -/
def loopTick (c : Config) (arr : Nat → Nat) (iter_count : Nat) (lanes : List Lane) :
    List Lane × List Entry :=
  let switched := scheduler_apply c iter_count lanes
  let updated := updateAll arr switched 0
  (updated, add_row updated)

/-- Lane states after the loop body has run for ticks `0, 1, …, t`
(the simulation always starts at tick 0, source lines 158-160);
`arrival t k` is the Poisson draw at tick `t` for lane position `k`. -/
def lanes_after (c : Config) (arrival : Nat → Nat → Nat) (lanes : List Lane) : Nat → List Lane
  | 0 => (loopTick c (arrival 0) 0 lanes).1
  | t + 1 => (loopTick c (arrival (t + 1)) (t + 1) (lanes_after c arrival lanes t)).1

/-! Basic frame lemmas about the queue update. -/

theorem update_green_light (lane : Lane) (a : Nat) :
    (update_vehicle_number lane a).green_light = lane.green_light := by
  simp only [update_vehicle_number]
  split
  · split <;> rfl
  · rfl

theorem update_lane_type (lane : Lane) (a : Nat) :
    (update_vehicle_number lane a).lane_type = lane.lane_type := by
  simp only [update_vehicle_number]
  split
  · split <;> rfl
  · rfl

theorem update_business (lane : Lane) (a : Nat) :
    (update_vehicle_number lane a).business = lane.business := by
  simp only [update_vehicle_number]
  split
  · split <;> rfl
  · rfl

/-! Membership lemmas for the per-tick transformations. -/

theorem mem_set_lanes {l : Lane} {lanes : List Lane} {lt : Nat} {s : Bool} :
    l ∈ set_lanes lanes lt s → ∃ l₀ ∈ lanes,
      l.lane_type = l₀.lane_type ∧ l.business = l₀.business ∧
      l.vehicle_num = l₀.vehicle_num ∧
      l.green_light = (if l₀.lane_type = lt then s else l₀.green_light) := by
  intro hl
  rcases List.mem_map.mp hl with ⟨l₀, hl₀, rfl⟩
  refine ⟨l₀, hl₀, ?_, ?_, ?_, ?_⟩ <;> split <;> simp_all

theorem mem_updateAll {l : Lane} {arr : Nat → Nat} :
    ∀ {lanes : List Lane} {k : Nat}, l ∈ updateAll arr lanes k →
      ∃ l₀ ∈ lanes, ∃ a, l = update_vehicle_number l₀ a := by
  intro lanes
  induction lanes with
  | nil => intro k h; simp [updateAll] at h
  | cons hd tl ih =>
      intro k h
      simp only [updateAll, List.mem_cons] at h
      rcases h with rfl | h
      · exact ⟨hd, List.mem_cons_self hd tl, arr k, rfl⟩
      · rcases ih h with ⟨l₀, hmem, a, rfl⟩
        exact ⟨l₀, List.mem_cons_of_mem hd hmem, a, rfl⟩

theorem mem_scheduler_apply {l : Lane} {c : Config} {i : Nat} {lanes : List Lane} :
    l ∈ scheduler_apply c i lanes → ∃ l₀ ∈ lanes,
      l.lane_type = l₀.lane_type ∧ l.business = l₀.business ∧
      l.vehicle_num = l₀.vehicle_num := by
  intro hl
  simp only [scheduler_apply] at hl
  split at hl
  · rcases mem_set_lanes hl with ⟨l₁, hl₁, ht, hb, hv, _⟩
    rcases mem_set_lanes hl₁ with ⟨l₀, hl₀, ht₀, hb₀, hv₀, _⟩
    exact ⟨l₀, hl₀, ht.trans ht₀, hb.trans hb₀, hv.trans hv₀⟩
  · split at hl
    · rcases mem_set_lanes hl with ⟨l₀, hl₀, ht, hb, hv, _⟩
      exact ⟨l₀, hl₀, ht, hb, hv⟩
    · split at hl
      · rcases mem_set_lanes hl with ⟨l₀, hl₀, ht, hb, hv, _⟩
        exact ⟨l₀, hl₀, ht, hb, hv⟩
      · split at hl
        · rcases mem_set_lanes hl with ⟨l₀, hl₀, ht, hb, hv, _⟩
          exact ⟨l₀, hl₀, ht, hb, hv⟩
        · exact ⟨l, hl, rfl, rfl, rfl⟩

/-- C1 — For every lane (Car or Bike), every non-negative starting queue
length, every signal state, and every non-negative arrival draw, one call
to `update_vehicle_number` keeps `vehicle_num ≥ 0`; and this invariant is
preserved by the whole per-tick transformation `loopTick` of the
simulation loop. -/
theorem queue_nonneg :
    (∀ (lane : Lane) (a : Nat),
      (lane.lane_type = LaneType.CAR ∨ lane.lane_type = LaneType.BIKE) →
      0 ≤ lane.vehicle_num → 0 ≤ (update_vehicle_number lane a).vehicle_num)
    ∧ (∀ (c : Config) (arr : Nat → Nat) (i : Nat) (lanes : List Lane),
      (∀ l ∈ lanes, (l.lane_type = LaneType.CAR ∨ l.lane_type = LaneType.BIKE) ∧
        0 ≤ l.vehicle_num) →
      ∀ l ∈ (loopTick c arr i lanes).1,
        (l.lane_type = LaneType.CAR ∨ l.lane_type = LaneType.BIKE) ∧
        0 ≤ l.vehicle_num) := by
  have base : ∀ (lane : Lane) (a : Nat),
      (lane.lane_type = LaneType.CAR ∨ lane.lane_type = LaneType.BIKE) →
      0 ≤ lane.vehicle_num → 0 ≤ (update_vehicle_number lane a).vehicle_num := by
    intro lane a hty hv
    unfold update_vehicle_number
    rcases hty with h | h <;>
      simp only [h, LaneType.CAR, LaneType.BIKE] <;> split <;> (try split) <;>
      simp_all <;> omega
  refine ⟨base, ?_⟩
  intro c arr i lanes hinv l hl
  rcases mem_updateAll hl with ⟨l₁, hl₁, a, rfl⟩
  rcases mem_scheduler_apply hl₁ with ⟨l₀, hl₀, ht, _, hv⟩
  have h₀ := hinv l₀ hl₀
  have hty : l₁.lane_type = LaneType.CAR ∨ l₁.lane_type = LaneType.BIKE := by
    rw [ht]; exact h₀.1
  refine ⟨?_, base l₁ a hty (by rw [hv]; exact h₀.2)⟩
  rw [update_lane_type, ht]; exact h₀.1

/-- Witness for C1 at a concrete green bike lane with queue 0 and 5 arrivals. -/
theorem queue_nonneg_witness :
    0 ≤ (update_vehicle_number
      { green_light := true, vehicle_num := 0, lane_type := 2, business := 1 } 5).vehicle_num :=
  queue_nonneg.1 _ 5 (Or.inr rfl) (by decide)

/-- C2 (counterexample) — a green Bike lane with queue 0 receiving 1
arrival has post-arrival queue exactly 1, yet the update leaves the queue
at 0, not at `0 + arrivals = 1` as the claim states. -/
theorem bike_floor_cex :
    (Lane.mk true 0 2 1).green_light = true ∧
    (Lane.mk true 0 2 1).lane_type = LaneType.BIKE ∧
    (Lane.mk true 0 2 1).vehicle_num + (1 : Nat) = 1 ∧
    (update_vehicle_number (Lane.mk true 0 2 1) 1).vehicle_num = 0 ∧
    ¬ (update_vehicle_number (Lane.mk true 0 2 1) 1).vehicle_num = 0 + (1 : Nat) := by
  decide

/-- C2 (amended) — for every green Bike lane whose queue length after
adding this tick's arrivals equals 1, the update departs exactly 1 vehicle
(not the discharge rate 2), so the resulting queue is 0 and never
negative; in particular with zero arrivals a green Bike lane with queue 1
ends the tick at queue 0. -/
theorem bike_floor (lane : Lane) (a : Nat)
    (hg : lane.green_light = true) (hb : lane.lane_type = LaneType.BIKE)
    (h1 : lane.vehicle_num + a = 1) :
    (update_vehicle_number lane a).vehicle_num = (lane.vehicle_num + a) - 1 ∧
    (update_vehicle_number lane a).vehicle_num = 0 ∧
    0 ≤ (update_vehicle_number lane a).vehicle_num := by
  unfold update_vehicle_number
  simp only [hg, hb, h1]
  norm_num

/-- Witness for C2: a green Bike lane with queue 1 and zero arrivals ends at 0. -/
theorem bike_floor_witness :
    (update_vehicle_number (Lane.mk true 1 2 (1 / 10)) 0).vehicle_num =
      ((Lane.mk true 1 2 (1 / 10)).vehicle_num + (0 : Nat)) - 1 ∧
    (update_vehicle_number (Lane.mk true 1 2 (1 / 10)) 0).vehicle_num = 0 ∧
    0 ≤ (update_vehicle_number (Lane.mk true 1 2 (1 / 10)) 0).vehicle_num :=
  bike_floor (Lane.mk true 1 2 (1 / 10)) 0 rfl rfl (by decide)

/-- C4 — lane construction performs no validation: a descriptor with
arrival rate `-1` is accepted and yields a normal `Lane` whose `business`
is `-1 ≤ 0`; no `InvalidConfiguration` failure exists anywhere in the
construction path (both `Lane.init` and the parse step are total). -/
theorem lane_construction_no_validation :
    parse_lane "car" (-1) =
      { green_light := false, vehicle_num := 0, lane_type := LaneType.CAR, business := -1 } ∧
    Lane.init LaneType.CAR (-1) =
      { green_light := false, vehicle_num := 0, lane_type := LaneType.CAR, business := -1 } ∧
    (Lane.init LaneType.CAR (-1)).business ≤ 0 := by
  refine ⟨?_, rfl, by decide⟩
  simp [parse_lane, parse_lane_type, Lane.init]

/-- C10 — every `"type"` string other than exactly `"car"` (including
`"Car"`, `"CAR"`, `"bike"`, misspellings, arbitrary values) produces a
Bike lane, whose discharge constant `LaneType.BIKE` is 2; only the exact
lowercase `"car"` produces a Car lane. -/
theorem unknown_type_is_bike :
    (∀ s : String, s ≠ "car" →
      parse_lane_type s = LaneType.BIKE ∧ (parse_lane s 1).lane_type = LaneType.BIKE)
    ∧ parse_lane_type "car" = LaneType.CAR
    ∧ LaneType.BIKE = 2 ∧ LaneType.CAR = 1 := by
  refine ⟨?_, by decide, rfl, rfl⟩
  intro s hs
  constructor <;> simp [parse_lane_type, parse_lane, Lane.init, hs]

/-- Witness for C10 at the concrete string `"Car"` (wrong case). -/
theorem unknown_type_is_bike_witness :
    parse_lane_type "Car" = LaneType.BIKE ∧
    (parse_lane "Car" 1).lane_type = LaneType.BIKE :=
  unknown_type_is_bike.1 "Car" (by decide)

/-! The scheduler viewed on the class-level signal state.  Since
`set_lanes` writes the same boolean to every lane of a class, the signal
information content of the lane list is one pair of booleans
`(bike green, car green)`; `step` is the image of the branch structure of
`scheduler_apply` (source lines 179-190) on that pair. -/

/-- One scheduler tick on the abstract pair `(bike green, car green)`;
the branch conditions are exactly those of `scheduler_apply`. -/
def step (c : Config) (iter_count : Nat) (s : Bool × Bool) : Bool × Bool :=
  let ticks := iter_count % c.CYCLE_LENGTH
  if ticks = 0 then (true, false)
  else if ticks = c.GREEN_BIKES then (false, s.2)
  else if ticks = c.GREEN_BIKES + c.RED_TIME_ALL then (s.1, true)
  else if ticks = c.GREEN_BIKES + c.RED_TIME_ALL + c.GREEN_CARS then (s.1, false)
  else s

/-- Abstract signal state once the loop body has run for ticks `0 … t`;
`Lane.__init__` starts every light red, hence the `(false, false)` seed. -/
def pairAt (c : Config) : Nat → Bool × Bool
  | 0 => step c 0 (false, false)
  | t + 1 => step c (t + 1) (pairAt c t)

theorem pairAt_zero (c : Config) : pairAt c 0 = (true, false) := by
  simp [pairAt, step]

/-- Closed form of the signal schedule: with strictly positive phase
durations, bikes are green exactly on phase ticks `[0, GREEN_BIKES)` and
cars exactly on `[GREEN_BIKES + RED_TIME_ALL,
GREEN_BIKES + RED_TIME_ALL + GREEN_CARS)`. -/
theorem pairAt_spec (c : Config)
    (hgb : 1 ≤ c.GREEN_BIKES) (har : 1 ≤ c.RED_TIME_ALL) (hgc : 1 ≤ c.GREEN_CARS) :
    ∀ t : Nat,
      ((pairAt c t).1 = true ↔ t % c.CYCLE_LENGTH < c.GREEN_BIKES) ∧
      ((pairAt c t).2 = true ↔
        c.GREEN_BIKES + c.RED_TIME_ALL ≤ t % c.CYCLE_LENGTH ∧
        t % c.CYCLE_LENGTH < c.GREEN_BIKES + c.RED_TIME_ALL + c.GREEN_CARS) := by
  have hcyc : c.CYCLE_LENGTH = c.GREEN_CARS + c.GREEN_BIKES + 2 * c.RED_TIME_ALL := rfl
  intro t
  induction t with
  | zero => constructor <;> simp [pairAt, step] <;> omega
  | succ t ih =>
      have hL1 : 1 < c.CYCLE_LENGTH := by omega
      have hr : t % c.CYCLE_LENGTH < c.CYCLE_LENGTH := Nat.mod_lt _ (by omega)
      have hsucc : (t + 1) % c.CYCLE_LENGTH = (t % c.CYCLE_LENGTH + 1) % c.CYCLE_LENGTH := by
        rw [Nat.add_mod, Nat.mod_eq_of_lt hL1]
      simp only [pairAt, step]
      by_cases hlast : t % c.CYCLE_LENGTH + 1 = c.CYCLE_LENGTH
      · have hm : (t + 1) % c.CYCLE_LENGTH = 0 := by rw [hsucc, hlast, Nat.mod_self]
        rw [hm, if_pos rfl]
        refine ⟨?_, ?_⟩ <;> simp <;> omega
      · have hm : (t + 1) % c.CYCLE_LENGTH = t % c.CYCLE_LENGTH + 1 := by
          rw [hsucc]; exact Nat.mod_eq_of_lt (by omega)
        rw [hm]
        split_ifs <;> refine ⟨?_, ?_⟩ <;> dsimp only <;>
          (try rw [ih.1]) <;> (try rw [ih.2]) <;> (try simp) <;>
          first
            | omega
            | exact False.elim (by assumption)

/-- The scheduler on a lane list refines `step` on the abstract pair,
given that the list's green lights agree with the pair. -/
theorem scheduler_apply_green (c : Config) (i : Nat) (lanes : List Lane) (s : Bool × Bool)
    (h : ∀ l ∈ lanes,
      (l.lane_type = LaneType.BIKE → l.green_light = s.1) ∧
      (l.lane_type = LaneType.CAR → l.green_light = s.2)) :
    ∀ l ∈ scheduler_apply c i lanes,
      (l.lane_type = LaneType.BIKE → l.green_light = (step c i s).1) ∧
      (l.lane_type = LaneType.CAR → l.green_light = (step c i s).2) := by
  intro l hl
  simp only [scheduler_apply] at hl
  simp only [step]
  by_cases h0 : i % c.CYCLE_LENGTH = 0
  · rw [if_pos h0] at hl ⊢
    rcases mem_set_lanes hl with ⟨l₁, hl₁, ht₁, _, _, hg₁⟩
    rcases mem_set_lanes hl₁ with ⟨l₀, hl₀, ht₀, _, _, hg₀⟩
    constructor
    · intro hb
      have hb' : l₁.lane_type = LaneType.BIKE := by rw [← ht₁]; exact hb
      rw [hg₁, if_pos hb']
    · intro hc
      have hbne : l₁.lane_type ≠ LaneType.BIKE := by rw [← ht₁, hc]; decide
      have hcar : l₀.lane_type = LaneType.CAR := by rw [← ht₀, ← ht₁]; exact hc
      rw [hg₁, if_neg hbne, hg₀, if_pos hcar]
  · rw [if_neg h0] at hl ⊢
    by_cases h1 : i % c.CYCLE_LENGTH = c.GREEN_BIKES
    · rw [if_pos h1] at hl ⊢
      rcases mem_set_lanes hl with ⟨l₀, hl₀, ht₀, _, _, hg₀⟩
      constructor
      · intro hb
        have hb' : l₀.lane_type = LaneType.BIKE := by rw [← ht₀]; exact hb
        rw [hg₀, if_pos hb']
      · intro hc
        have hbne : l₀.lane_type ≠ LaneType.BIKE := by rw [← ht₀, hc]; decide
        rw [hg₀, if_neg hbne]
        exact (h l₀ hl₀).2 (by rw [← ht₀]; exact hc)
    · rw [if_neg h1] at hl ⊢
      by_cases h2 : i % c.CYCLE_LENGTH = c.GREEN_BIKES + c.RED_TIME_ALL
      · rw [if_pos h2] at hl ⊢
        rcases mem_set_lanes hl with ⟨l₀, hl₀, ht₀, _, _, hg₀⟩
        constructor
        · intro hb
          have hcne : l₀.lane_type ≠ LaneType.CAR := by rw [← ht₀, hb]; decide
          rw [hg₀, if_neg hcne]
          exact (h l₀ hl₀).1 (by rw [← ht₀]; exact hb)
        · intro hc
          have hc' : l₀.lane_type = LaneType.CAR := by rw [← ht₀]; exact hc
          rw [hg₀, if_pos hc']
      · rw [if_neg h2] at hl ⊢
        by_cases h3 : i % c.CYCLE_LENGTH = c.GREEN_BIKES + c.RED_TIME_ALL + c.GREEN_CARS
        · rw [if_pos h3] at hl ⊢
          rcases mem_set_lanes hl with ⟨l₀, hl₀, ht₀, _, _, hg₀⟩
          constructor
          · intro hb
            have hcne : l₀.lane_type ≠ LaneType.CAR := by rw [← ht₀, hb]; decide
            rw [hg₀, if_neg hcne]
            exact (h l₀ hl₀).1 (by rw [← ht₀]; exact hb)
          · intro hc
            have hc' : l₀.lane_type = LaneType.CAR := by rw [← ht₀]; exact hc
            rw [hg₀, if_pos hc']
        · rw [if_neg h3] at hl ⊢
          exact h l hl

/-- At a tick that is `0 mod CYCLE_LENGTH` the scheduler forces both
classes, so no hypothesis on the incoming lane list is needed. -/
theorem scheduler_apply_green_zero (c : Config) (i : Nat) (lanes : List Lane)
    (h0 : i % c.CYCLE_LENGTH = 0) :
    ∀ l ∈ scheduler_apply c i lanes,
      (l.lane_type = LaneType.BIKE → l.green_light = true) ∧
      (l.lane_type = LaneType.CAR → l.green_light = false) := by
  intro l hl
  simp only [scheduler_apply] at hl
  rw [if_pos h0] at hl
  rcases mem_set_lanes hl with ⟨l₁, hl₁, ht₁, _, _, hg₁⟩
  rcases mem_set_lanes hl₁ with ⟨l₀, hl₀, ht₀, _, _, hg₀⟩
  constructor
  · intro hb
    have hb' : l₁.lane_type = LaneType.BIKE := by rw [← ht₁]; exact hb
    rw [hg₁, if_pos hb']
  · intro hc
    have hbne : l₁.lane_type ≠ LaneType.BIKE := by rw [← ht₁, hc]; decide
    have hcar : l₀.lane_type = LaneType.CAR := by rw [← ht₀, ← ht₁]; exact hc
    rw [hg₁, if_neg hbne, hg₀, if_pos hcar]

/-- Every lane's green light after the loop has processed ticks `0 … t`
agrees with the abstract pair `pairAt`. -/
theorem lanes_after_green (c : Config) (arrival : Nat → Nat → Nat) (lanes : List Lane) :
    ∀ t, ∀ l ∈ lanes_after c arrival lanes t,
      (l.lane_type = LaneType.BIKE → l.green_light = (pairAt c t).1) ∧
      (l.lane_type = LaneType.CAR → l.green_light = (pairAt c t).2) := by
  intro t
  induction t with
  | zero =>
      intro l hl
      simp only [lanes_after, loopTick] at hl
      rcases mem_updateAll hl with ⟨l₁, hl₁, a, rfl⟩
      have h₁ := scheduler_apply_green_zero c 0 lanes (by simp) l₁ hl₁
      rw [pairAt_zero]
      constructor <;> intro hty <;> rw [update_green_light] <;> rw [update_lane_type] at hty
      · exact h₁.1 hty
      · exact h₁.2 hty
  | succ t ih =>
      intro l hl
      simp only [lanes_after, loopTick] at hl
      rcases mem_updateAll hl with ⟨l₁, hl₁, a, rfl⟩
      have h₁ := scheduler_apply_green c (t + 1) (lanes_after c arrival lanes t) (pairAt c t) ih l₁ hl₁
      have hpair : pairAt c (t + 1) = step c (t + 1) (pairAt c t) := rfl
      rw [hpair]
      constructor <;> intro hty <;> rw [update_green_light] <;> rw [update_lane_type] at hty
      · exact h₁.1 hty
      · exact h₁.2 hty

/-- C5 — with strictly positive phase durations, at every reachable tick
of the simulation a Car lane and a Bike lane are never both green; and
during the two all-red windows of each cycle (phase ticks
`[GREEN_BIKES, GREEN_BIKES + RED_TIME_ALL)` and
`[GREEN_BIKES + RED_TIME_ALL + GREEN_CARS, CYCLE_LENGTH)`) every lane of
either class is red. -/
theorem signal_exclusivity (c : Config)
    (hgb : 1 ≤ c.GREEN_BIKES) (har : 1 ≤ c.RED_TIME_ALL) (hgc : 1 ≤ c.GREEN_CARS)
    (arrival : Nat → Nat → Nat) (lanes : List Lane) (t : Nat) :
    (∀ bl ∈ lanes_after c arrival lanes t, ∀ cl ∈ lanes_after c arrival lanes t,
      bl.lane_type = LaneType.BIKE → cl.lane_type = LaneType.CAR →
      ¬ (bl.green_light = true ∧ cl.green_light = true))
    ∧ (((c.GREEN_BIKES ≤ t % c.CYCLE_LENGTH ∧
          t % c.CYCLE_LENGTH < c.GREEN_BIKES + c.RED_TIME_ALL) ∨
        c.GREEN_BIKES + c.RED_TIME_ALL + c.GREEN_CARS ≤ t % c.CYCLE_LENGTH) →
      ∀ l ∈ lanes_after c arrival lanes t,
        (l.lane_type = LaneType.BIKE ∨ l.lane_type = LaneType.CAR) →
        l.green_light = false) := by
  have hgreen := lanes_after_green c arrival lanes t
  have hspec := pairAt_spec c hgb har hgc t
  constructor
  · intro bl hbl cl hcl hb hc hboth
    have h1 := (hgreen bl hbl).1 hb
    have h2 := (hgreen cl hcl).2 hc
    rw [hboth.1] at h1
    rw [hboth.2] at h2
    have hb' := hspec.1.mp h1.symm
    have hc' := hspec.2.mp h2.symm
    omega
  · intro hwin l hl hty
    rcases hty with hb | hc
    · rw [(hgreen l hl).1 hb]
      cases hfst : (pairAt c t).1
      · rfl
      · exact absurd (hspec.1.mp hfst) (by omega)
    · rw [(hgreen l hl).2 hc]
      cases hsnd : (pairAt c t).2
      · rfl
      · exact absurd (hspec.2.mp hsnd) (by omega)

/-- Witness for C5: with the default configuration, one car lane and one
bike lane, at tick 5 the bike lane is green, the car lane is red, and the
exclusivity instance holds. -/
theorem signal_exclusivity_witness :
    ¬ ((Lane.mk true 0 2 1).green_light = true ∧ (Lane.mk false 0 1 1).green_light = true) :=
  (signal_exclusivity defaultConfig (by decide) (by decide) (by decide)
      (fun _ _ => 0) [Lane.mk false 0 1 1, Lane.mk false 0 2 1] 5).1
    (Lane.mk true 0 2 1) (by decide) (Lane.mk false 0 1 1) (by decide) rfl rfl

/-- Source line 118: `self.lane_count = 4`. -/
def lane_count : Nat := 4

/-- Source lines 147-149: the fallback lane set — lanes `0,1` are Car,
lanes `2,3` are Bike, with business `(4 - i) * 0.1`. -/
def default_lanes : List Lane :=
  (List.range lane_count).map fun i =>
    Lane.init (if 2 ≤ i then LaneType.BIKE else LaneType.CAR)
      (((lane_count - i : Nat) : Rat) * (1 / 10))

set_option maxRecDepth 8192 in
/-- C6 — with the default configuration (bike green 10, all red 10, car
green 30, cycle 60) and the default lanes, starting from tick 0: at tick 0
bikes are green and cars red; at tick 10 all red; at tick 20 cars green
and bikes red; at tick 50 all red; and at tick 60 the signal state equals
the tick-0 state. -/
theorem default_schedule_scenario :
    ((lanes_after defaultConfig (fun _ _ => 0) default_lanes 0).map
        fun l => (l.lane_type, l.green_light)) =
      [(1, false), (1, false), (2, true), (2, true)] ∧
    ((lanes_after defaultConfig (fun _ _ => 0) default_lanes 10).map
        fun l => (l.lane_type, l.green_light)) =
      [(1, false), (1, false), (2, false), (2, false)] ∧
    ((lanes_after defaultConfig (fun _ _ => 0) default_lanes 20).map
        fun l => (l.lane_type, l.green_light)) =
      [(1, true), (1, true), (2, false), (2, false)] ∧
    ((lanes_after defaultConfig (fun _ _ => 0) default_lanes 50).map
        fun l => (l.lane_type, l.green_light)) =
      [(1, false), (1, false), (2, false), (2, false)] ∧
    ((lanes_after defaultConfig (fun _ _ => 0) default_lanes 60).map
        fun l => (l.lane_type, l.green_light)) =
      ((lanes_after defaultConfig (fun _ _ => 0) default_lanes 0).map
        fun l => (l.lane_type, l.green_light)) := by
  decide

/-- C7 — the scheduler's transition at tick `t + CYCLE_LENGTH` is
identical to the one at tick `t`, for every configuration and lane list:
the schedule is a pure function of `t % CYCLE_LENGTH`. -/
theorem apply_periodic (c : Config) (t : Nat) (lanes : List Lane) :
    scheduler_apply c (t + c.CYCLE_LENGTH) lanes = scheduler_apply c t lanes := by
  simp only [scheduler_apply, Nat.add_mod_right]

/-- Any field untouched by the green-light override is preserved pointwise
by `set_lanes`. -/
theorem set_lanes_map_proj {β : Type} (f : Lane → β)
    (hf : ∀ (lane : Lane) (s : Bool), f { lane with green_light := s } = f lane)
    (lanes : List Lane) (lt : Nat) (s : Bool) :
    (set_lanes lanes lt s).map f = lanes.map f := by
  induction lanes with
  | nil => rfl
  | cons hd tl ih =>
      simp only [set_lanes, List.map_cons] at ih ⊢
      by_cases h : hd.lane_type = lt
      · rw [if_pos h, ih, hf]
      · rw [if_neg h, ih]

/-- Lanes of a non-matching class are untouched by `set_lanes`. -/
theorem set_lanes_filter_other (lanes : List Lane) (lt : Nat) (s : Bool) :
    (set_lanes lanes lt s).filter (fun l => ! (l.lane_type == lt)) =
      lanes.filter (fun l => ! (l.lane_type == lt)) := by
  induction lanes with
  | nil => rfl
  | cons hd tl ih =>
      simp only [set_lanes, List.map_cons, List.filter_cons] at ih ⊢
      by_cases h : hd.lane_type = lt <;> simp [h, ih]

/-- C9 — frame conditions: `set_lanes` changes only `green_light` and only
on lanes of the matching class (class, business and queue of every lane
are kept, non-matching lanes are untouched); on non-boundary ticks the
scheduler changes nothing at all; and the queue update never modifies
`green_light`, `lane_type` or `business`. -/
theorem frame_conditions :
    (∀ (lanes : List Lane) (lt : Nat) (s : Bool),
      (set_lanes lanes lt s).map Lane.lane_type = lanes.map Lane.lane_type ∧
      (set_lanes lanes lt s).map Lane.business = lanes.map Lane.business ∧
      (set_lanes lanes lt s).map Lane.vehicle_num = lanes.map Lane.vehicle_num ∧
      (set_lanes lanes lt s).filter (fun l => ! (l.lane_type == lt)) =
        lanes.filter (fun l => ! (l.lane_type == lt)))
    ∧ (∀ (c : Config) (i : Nat) (lanes : List Lane),
        i % c.CYCLE_LENGTH ≠ 0 →
        i % c.CYCLE_LENGTH ≠ c.GREEN_BIKES →
        i % c.CYCLE_LENGTH ≠ c.GREEN_BIKES + c.RED_TIME_ALL →
        i % c.CYCLE_LENGTH ≠ c.GREEN_BIKES + c.RED_TIME_ALL + c.GREEN_CARS →
        scheduler_apply c i lanes = lanes)
    ∧ (∀ (lane : Lane) (a : Nat),
        (update_vehicle_number lane a).green_light = lane.green_light ∧
        (update_vehicle_number lane a).lane_type = lane.lane_type ∧
        (update_vehicle_number lane a).business = lane.business) := by
  refine ⟨?_, ?_, ?_⟩
  · intro lanes lt s
    exact ⟨set_lanes_map_proj Lane.lane_type (fun _ _ => rfl) lanes lt s,
      set_lanes_map_proj Lane.business (fun _ _ => rfl) lanes lt s,
      set_lanes_map_proj Lane.vehicle_num (fun _ _ => rfl) lanes lt s,
      set_lanes_filter_other lanes lt s⟩
  · intro c i lanes h0 h1 h2 h3
    simp only [scheduler_apply]
    rw [if_neg h0, if_neg h1, if_neg h2, if_neg h3]
  · exact fun lane a =>
      ⟨update_green_light lane a, update_lane_type lane a, update_business lane a⟩

/-- Witness for C9: tick 5 of the default configuration is not a phase
boundary, so the scheduler leaves a lane list unchanged. -/
theorem frame_conditions_witness :
    scheduler_apply defaultConfig 5 [Lane.mk false 0 1 1] = [Lane.mk false 0 1 1] :=
  frame_conditions.2.1 defaultConfig 5 [Lane.mk false 0 1 1]
    (by decide) (by decide) (by decide) (by decide)

/-! The observation-recording side of `Main`: column construction, the
tick loop, and the row insertion `self.traffic_data.loc[index] = final`,
which raises a `ValueError` when the row has a different length than the
column list.  That failure is made explicit with `Except`. -/

/-- Source lines 127-139: column names built from a non-empty parsed lane
list; `"bikelight"` and `"carlight"` are appended unconditionally, even
when the corresponding class has no lanes. -/
def dynamic_columns (lanes : List Lane) : List String :=
  let bikes := lanes.filter fun a => a.lane_type == LaneType.BIKE
  let cars := lanes.filter fun a => a.lane_type == LaneType.CAR
  ["bikelight"] ++ ((List.range bikes.length).map fun i => "Bikes " ++ toString (i + 1))
    ++ ["carlight"] ++ ((List.range cars.length).map fun i => "Cars " ++ toString (i + 1))

/-- Source lines 144-145: the fallback column names. -/
def default_columns : List String :=
  ["Bike lanes", "Bikes 1", "Bikes 2", "Car lanes", "Cars 1", "Cars 2"]

/-- Source lines 127-149 of `Main.__init__`: a non-empty parsed lane list
is used together with the dynamic columns; an empty one triggers the
fallback columns and fallback lanes. -/
def main_init (parsed : List Lane) : List String × List Lane :=
  if parsed = [] then (default_columns, default_lanes)
  else (dynamic_columns parsed, parsed)

/-- Source line 158: `loop_count = int(3600 * SIM_LENGTH)`. -/
def loop_count : Nat := ((3600 : Rat) * SIM_LENGTH).floor.toNat

/-- Source lines 158-160 plus the row insertion of line 226: run the loop
for `n` more ticks starting at tick `i`; a row whose length differs from
the column count raises (pandas `ValueError`), modelled as an error. -/
def run_from (c : Config) (arrival : Nat → Nat → Nat) (cols : List String) :
    Nat → Nat → List Lane → Except String (List (List Entry))
  | _, 0, _ => Except.ok []
  | i, n + 1, lanes =>
    let r := loopTick c (arrival i) i lanes
    if r.2.length = cols.length then
      match run_from c arrival cols (i + 1) n r.1 with
      | Except.ok rows => Except.ok (r.2 :: rows)
      | Except.error e => Except.error e
    else Except.error "cannot set a row with mismatched columns"

/-- Number of produced observation rows, or `none` if the run raised. -/
def result_length : Except String (List (List Entry)) → Option Nat
  | Except.ok rows => some rows.length
  | Except.error _ => none

/-- The lane classes of a lane list, in order. -/
def typesOf (lanes : List Lane) : List Nat := lanes.map Lane.lane_type

/-- Length of an `add_row` row, as a function of the lane classes only. -/
def row_width (types : List Nat) : Nat :=
  let b := (types.filter fun k => k == LaneType.BIKE).length
  let c := (types.filter fun k => k == LaneType.CAR).length
  min b 1 + b + (min c 1 + c)

theorem head_flag_length (xs : List Lane) : (head_flag xs).length = min xs.length 1 := by
  cases xs <;> simp [head_flag]

theorem filter_length_types (lanes : List Lane) (k : Nat) :
    (lanes.filter fun a => a.lane_type == k).length =
      ((typesOf lanes).filter fun x => x == k).length := by
  induction lanes with
  | nil => rfl
  | cons hd tl ih =>
      simp only [typesOf, List.map_cons, List.filter_cons] at ih ⊢
      cases h : hd.lane_type == k <;> simp [h, ih]

theorem add_row_length (lanes : List Lane) :
    (add_row lanes).length = row_width (typesOf lanes) := by
  simp only [add_row, row_width, List.length_append, List.length_map, head_flag_length,
    filter_length_types]
  omega

theorem typesOf_set_lanes (lanes : List Lane) (lt : Nat) (s : Bool) :
    typesOf (set_lanes lanes lt s) = typesOf lanes :=
  set_lanes_map_proj Lane.lane_type (fun _ _ => rfl) lanes lt s

theorem typesOf_scheduler_apply (c : Config) (i : Nat) (lanes : List Lane) :
    typesOf (scheduler_apply c i lanes) = typesOf lanes := by
  simp only [scheduler_apply]
  split_ifs <;> simp [typesOf_set_lanes]

theorem typesOf_updateAll (arr : Nat → Nat) :
    ∀ (lanes : List Lane) (k : Nat), typesOf (updateAll arr lanes k) = typesOf lanes := by
  intro lanes
  induction lanes with
  | nil => intro k; rfl
  | cons hd tl ih =>
      intro k
      simp only [updateAll, typesOf, List.map_cons, List.cons.injEq]
      exact ⟨update_lane_type hd (arr k), ih (k + 1)⟩

theorem typesOf_loopTick (c : Config) (arr : Nat → Nat) (i : Nat) (lanes : List Lane) :
    typesOf (loopTick c arr i lanes).1 = typesOf lanes := by
  simp only [loopTick]
  rw [typesOf_updateAll, typesOf_scheduler_apply]

/-- As long as the lane classes make the row width match the column
count, the loop runs to completion and yields one row per tick. -/
theorem run_from_ok (c : Config) (arrival : Nat → Nat → Nat) (cols : List String) :
    ∀ (n i : Nat) (lanes : List Lane),
      row_width (typesOf lanes) = cols.length →
      result_length (run_from c arrival cols i n lanes) = some n := by
  intro n
  induction n with
  | zero => intro i lanes _; rfl
  | succ n ih =>
      intro i lanes h
      have hrow : (loopTick c (arrival i) i lanes).2.length = cols.length := by
        have heq : (loopTick c (arrival i) i lanes).2 =
            add_row (loopTick c (arrival i) i lanes).1 := rfl
        rw [heq, add_row_length, typesOf_loopTick, h]
      have hnext := ih (i + 1) (loopTick c (arrival i) i lanes).1
        (by rw [typesOf_loopTick]; exact h)
      simp only [run_from]
      rw [if_pos hrow]
      cases hrun : run_from c arrival cols (i + 1) n (loopTick c (arrival i) i lanes).1 with
      | ok rows =>
          rw [hrun] at hnext
          simp only [result_length, Option.some.injEq] at hnext
          simp [result_length, hnext]
      | error e =>
          rw [hrun] at hnext
          simp [result_length] at hnext

theorem loop_count_eq : loop_count = 360 := by
  simp only [loop_count, SIM_LENGTH]
  norm_num
  rfl

/-- C8 — when the configuration source is missing or malformed the parse
result is the empty lane list (source lines 86-88 and 108-110), and the
run falls back to the defaults `GREEN_CARS = 30`, `GREEN_BIKES = 10`,
`RED_TIME_ALL = 10`, `SIM_LENGTH = 0.1` and the default 4-lane set
(2 Car then 2 Bike lanes with preset rates `0.4, 0.3, 0.2, 0.1`), runs to
completion, and produces exactly `int(3600 * 0.1) = 360` observation
rows. -/
theorem fallback_run (arrival : Nat → Nat → Nat) :
    result_length (run_from defaultConfig arrival (main_init []).1 0 loop_count
        (main_init []).2) = some 360 ∧
    loop_count = 360 ∧
    SIM_LENGTH = 1 / 10 ∧
    defaultConfig = { GREEN_CARS := 30, GREEN_BIKES := 10, RED_TIME_ALL := 10 } ∧
    (main_init []).2.map (fun l => (l.lane_type, l.business)) =
      [(LaneType.CAR, 2 / 5), (LaneType.CAR, 3 / 10),
        (LaneType.BIKE, 1 / 5), (LaneType.BIKE, 1 / 10)] := by
  refine ⟨?_, loop_count_eq, rfl, rfl, ?_⟩
  · have h := run_from_ok defaultConfig arrival (main_init []).1 loop_count 0
      (main_init []).2 (by decide)
    rw [h, loop_count_eq]
  · simp [main_init, default_lanes, lane_count, Lane.init, List.range_succ]
    norm_num

/-- C3 (failing case) — a parsed configuration with one Car lane and no
Bike lane is accepted, but the very first tick fails: the column list has
3 entries (`bikelight` is added even with no bike lanes) while the row has
only 2, so the row insertion raises instead of completing. -/
theorem single_class_run_fails :
    result_length (run_from defaultConfig (fun _ _ => 0)
        (main_init [Lane.init LaneType.CAR 1]).1 0 loop_count
        (main_init [Lane.init LaneType.CAR 1]).2) = none ∧
    (main_init [Lane.init LaneType.CAR 1]).1.length = 3 ∧
    (loopTick defaultConfig (fun _ => 0) 0
        (main_init [Lane.init LaneType.CAR 1]).2).2.length = 2 := by
  refine ⟨?_, by decide, by decide⟩
  rw [loop_count_eq]
  rfl

end Traffic
